import Mathlib

/-!
# FasterTransformer `examples/cpp/gpt_fp8/gpt_fp8_example.cc`

A shallow embedding of the host-side driver of the FP8 GPT example:
`read_start_ids` (prompt loading, padding and beam replication) and the part of
`gpt_example` that validates the configuration, derives the rank coordinates,
prepares the input buffers and builds the request and response tensor maps.

Integer model.  A C++ `int` is an `Int`, a `size_t` is a `Nat`, a
`std::vector<int>` is a `List Int`.  Conversions between the integer types are
the ones of the machine: `(size_t)x` of a negative `int` is `2^64 + x`
(`size_t_of_int`), `(int)n` of a `size_t` is the two's-complement reading of
`n mod 2^32` (`int_of_size_t`), `(uint32_t)x` is `x mod 2^32` (`uint32_of_int`),
and products of `size_t` values are taken modulo `2^64` (`size_t_mul`).  Sums
and products of `int` values are taken in `Int`, signed overflow being undefined
in the source; the one exception is the product of line 191, whose left operand
is a narrowed `size_t` quotient and which is reduced to 32 bits as the machine
does.  `int` division and remainder truncate toward zero (`Int.tdiv`,
`Int.tmod`); a remainder by zero is undefined in the source and ends the modelled
run with `Fatal.division_by_zero`.
-/

namespace GptFp8Example

/-! ## `read_start_ids` (source lines 61-127) -/

/-- The prompt file `start_ids.csv` as `read_start_ids` sees it: `none` when
`start_id_file.is_open()` is false, otherwise the lines of the file, each one
split at `,` with every field converted by `std::stoi`. -/
abbrev PromptFile := Option (List (List Int))

/-- The values `read_start_ids` leaves behind: its return value, the two output
vectors and the reference parameter `max_input_len`. -/
structure StartIds where
  ret : Int
  v_start_lengths : List Int
  v_start_ids : List Int
  max_input_len : Int
deriving DecidableEq, Repr

/-- Lines 97-99: `for (uint i = 1; i < size; i++) max_input_len = max_input_len >
tmp_start_lengths[i] ? max_input_len : tmp_start_lengths[i];`.  The loop starts
at index 1, so the entry at index 0 is never looked at. -/
def max_len_loop (max_input_len : Int) (tmp_start_lengths : List Int) : Int :=
  (tmp_start_lengths.drop 1).foldl (fun m l => if m > l then m else l) max_input_len

/-- Lines 102-105: the vector `padding_ids`, `max_input_len` pushes of `end_id`. -/
def padding_ids (max_input_len end_id : Int) : List Int :=
  List.replicate max_input_len.toNat end_id

/-- Lines 101-108: `while ((int)tmp_start_lengths.size() < batch_size)` pushes one
filler row and its length.  The first argument bounds the number of iterations;
`read_start_ids` passes `batch_size - size`, which `fill_loop_exit` shows to be
enough for the loop condition to be false on return. -/
def fill_loop (batch_size max_input_len end_id : Int) :
    Nat → List (List Int) × List Int → List (List Int) × List Int
  | 0, s => s
  | fuel + 1, (tmp_start_ids, tmp_start_lengths) =>
    if (tmp_start_lengths.length : Int) < batch_size then
      fill_loop batch_size max_input_len end_id fuel
        (tmp_start_ids ++ [padding_ids max_input_len end_id],
         tmp_start_lengths ++ [max_input_len])
    else (tmp_start_ids, tmp_start_lengths)

/-- Lines 112-114: `for (j = row.size(); j < max_input_len; j++) row.push_back(end_id)`. -/
def add_padding_row (max_input_len end_id : Int) (row : List Int) : List Int :=
  row ++ List.replicate (max_input_len - (row.length : Int)).toNat end_id

/-- Lines 111-115: the padding loop over all rows of `tmp_start_ids`. -/
def add_padding (max_input_len end_id : Int) (tmp_start_ids : List (List Int)) :
    List (List Int) :=
  tmp_start_ids.map (add_padding_row max_input_len end_id)

/-- Lines 118-123: the loop over `b < beam_width` for one row; each iteration
pushes the whole row to `v_start_ids` and its length to `v_start_lengths`. -/
def beam_loop (row : List Int) (len : Int) : Nat → List Int × List Int → List Int × List Int
  | 0, out => out
  | b + 1, (v_start_ids, v_start_lengths) =>
    beam_loop row len b (v_start_ids ++ row, v_start_lengths ++ [len])

/-- Lines 117-124: the loop over the rows; row `i` is paired with
`tmp_start_lengths[i]`. -/
def emit_loop (beam_width : Int) (tmp_start_ids : List (List Int)) (tmp_start_lengths : List Int)
    (out : List Int × List Int) : List Int × List Int :=
  (tmp_start_ids.zip tmp_start_lengths).foldl
    (fun acc rl => beam_loop rl.1 rl.2 beam_width.toNat acc) out

/-- The function `read_start_ids` of lines 61-127.  `v_start_lengths`,
`v_start_ids` are the vectors behind the two pointers as they are on entry and
`max_input_len` is the value of the reference parameter on entry. -/
def read_start_ids (file : PromptFile) (batch_size : Int)
    (v_start_lengths v_start_ids : List Int) (max_input_len : Int)
    (end_id beam_width : Int) : StartIds :=
  match file with
  | none =>
    { ret := 0, v_start_lengths := v_start_lengths, v_start_ids := v_start_ids,
      max_input_len := 0 }
  | some lines =>
    let tmp_start_ids := lines
    let tmp_start_lengths : List Int := lines.map (fun tmp_vec => (tmp_vec.length : Int))
    let max_input_len := max_len_loop max_input_len tmp_start_lengths
    let filled := fill_loop batch_size max_input_len end_id
      (batch_size - (tmp_start_lengths.length : Int)).toNat (tmp_start_ids, tmp_start_lengths)
    let tmp_start_ids := add_padding max_input_len end_id filled.1
    let tmp_start_lengths := filled.2
    let out := emit_loop beam_width tmp_start_ids tmp_start_lengths (v_start_ids, v_start_lengths)
    { ret := 0, v_start_lengths := out.2, v_start_ids := out.1,
      max_input_len := max_input_len }

/-! ## Tensors and tensor maps (the types `gpt_example` builds its request from) -/

/-- Memory space of a tensor, `MEMORY_CPU` or `MEMORY_GPU`. -/
inductive MemoryType
  | MEMORY_CPU
  | MEMORY_GPU
deriving DecidableEq, Repr

/-- Element type of a tensor; the four types the example uses. -/
inductive DataType
  | TYPE_INT32
  | TYPE_UINT32
  | TYPE_UINT64
  | TYPE_FP32
deriving DecidableEq, Repr

/-- The buffer a tensor's data pointer refers to.  `nullptr` is the null pointer;
`d_input_ids` and `d_input_lengths` carry what the host-to-device copy wrote;
`d_output_ids` and `d_sequence_lengths` are freshly allocated buffers of the given
element count; the others are the addresses of host variables. -/
inductive Data
  | nullptr
  | d_input_ids (contents : List Int)
  | d_input_lengths (contents : List Int)
  | output_seq_len_array (contents : List Nat)
  | temperature
  | len_penalty
  | repetition_penalty
  | beam_search_diversity_rate
  | random_seed
  | top_p
  | top_k (value : Int)
  | d_output_ids (count : Nat)
  | d_sequence_lengths (count : Nat)
deriving DecidableEq, Repr

/-- The aggregate `Tensor{where, type, shape, data}`. -/
structure Tensor where
  memory : MemoryType
  type : DataType
  shape : List Nat
  data : Data
deriving DecidableEq, Repr

/-- A `std::unordered_map<std::string, Tensor>`, kept as the list of its entries in
the order they were inserted; keys are unique. -/
abbrev TensorMap := List (String × Tensor)

/-- The call `std::unordered_map::insert`: the entry is added unless the key is
already present, in which case the map is left as it is. -/
def TensorMap.insert (m : TensorMap) (key : String) (t : Tensor) : TensorMap :=
  if m.any (fun e => e.1 == key) then m else m ++ [(key, t)]

/-- The keys of a tensor map. -/
def TensorMap.keys (m : TensorMap) : List String := m.map (fun e => e.1)

/-- Lookup of a key. -/
def TensorMap.find (m : TensorMap) (key : String) : Option Tensor :=
  (m.find? (fun e => e.1 == key)).map (fun e => e.2)

/-- Whether a key is present (`count(key) != 0`). -/
def TensorMap.contains (m : TensorMap) (key : String) : Bool :=
  m.any (fun e => e.1 == key)

/-! ## Integer conversions -/

/-- The conversion of an `int` to `size_t`, explicit as in `(size_t)max_input_len` or
implicit when an `int` meets a `size_t` operand: the value itself when it is
nonnegative, `2^64 + x` when it is negative. -/
def size_t_of_int (x : Int) : Nat :=
  if 0 ≤ x then x.toNat else (18446744073709551616 + x).toNat

/-- The two's-complement reading of an integer modulo `2^32`, the value a 32-bit
`int` holds after a narrowing. -/
def wrap_int (x : Int) : Int := (x + 2147483648) % 4294967296 - 2147483648

/-- The conversion `(int)n` of a `size_t`, explicit as in `(int)max_seq_len` or
implicit when a `size_t` is passed for an `int` parameter. -/
def int_of_size_t (n : Nat) : Int := wrap_int (n : Int)

/-- The conversion of an `int` to `uint32_t`: the value modulo `2^32`. -/
def uint32_of_int (x : Int) : Nat := (x % 4294967296).toNat

/-- The product of two `size_t` values, modulo `2^64`. -/
def size_t_mul (a b : Nat) : Nat := (a * b) % 18446744073709551616

/-! ## `gpt_example` (source lines 129-337) -/

/-- What the driver needs to know of the `float` `top_p`: it is only ever compared
with `0.0f`.  `zero` stands for `+0.0f` and `-0.0f`, `nonzero` for every other
value, NaN included (for which `top_p == 0.0f` is false and `top_p != 0.0f` true). -/
inductive FP32
  | zero
  | nonzero
deriving DecidableEq, Repr

/-- The comparison `top_p == 0.0f`; `top_p != 0.0f` is its negation. -/
def FP32.eq_zero : FP32 → Bool
  | .zero => true
  | .nonzero => false

/-- The values `gpt_example` reads from the INI file (the ones that steer the
modelled part of the function), each with the type of the variable that holds it:
`Nat` for a `size_t`, `Int` for an `int`. -/
structure Config where
  max_seq_len : Nat
  beam_width : Nat
  top_k : Int
  top_p : FP32
  tensor_para_size : Int
  pipeline_para_size : Int
  head_num : Nat
  decoder_layers : Nat
  request_batch_size : Nat
  request_input_len : Int
deriving DecidableEq, Repr

/-- What the process finds around it: its MPI rank and the world size, the number
of CUDA devices `cudaGetDeviceCount` reports, and the prompt file. -/
structure Env where
  rank : Int
  world_size : Int
  device_count : Int
  start_id_file : PromptFile
deriving DecidableEq, Repr

/-- The ways the modelled part of `gpt_example` ends the process: a failed
`FT_CHECK` (an uncaught exception), `exit(-1)`, or a remainder by zero at line 162
or 163, where the behaviour of the source is undefined. -/
inductive Fatal
  | division_by_zero
  | ft_check_head_num
  | ft_check_decoder_layers
  | ft_check_world_size
  | exit_layers_per_group
  | exit_total_output_len
  | ft_check_beam_width
deriving DecidableEq, Repr

/-- The calls `gpt_example` issues that touch the CUDA runtime, the communicator
or the prompt file, in the order of the source. -/
inductive Event
  | cudaGetDeviceCount
  | cudaSetDevice (device : Int)
  | cudaGetDevice
  | cudaGetDeviceProperties
  | ftNcclInitialize
  | read_start_ids
  | deviceMalloc (count : Nat)
  | cudaH2Dcpy (count : Nat)
  | cudaStreamCreate
  | cublasCreate
  | cublasLtCreate
  | cublasSetStream
  | GptFP8Weight
  | transposeWeight
  | GptFP8
deriving DecidableEq, Repr

/-- Lines 159-160: `start_id` and `end_id`. -/
def start_id : Int := 50256

/-- Line 160. -/
def end_id : Int := 50256

/-- Lines 188-189: `tensor_para_rank = rank % tensor_para_size` and
`pipeline_para_rank = rank / tensor_para_size`, in `int` arithmetic. -/
def rank_coordinates (rank tensor_para_size : Int) : Int × Int :=
  (rank.tmod tensor_para_size, rank.tdiv tensor_para_size)

/-- The state after lines 207-225: the prompt vectors, `max_input_len`, the two
device pointers and the calls issued on the way. -/
structure Inputs where
  max_input_len : Int
  v_start_lengths : List Int
  v_start_ids : List Int
  d_input_ids : Data
  d_input_lengths : Data
  events : List Event
deriving DecidableEq, Repr

/-- The contents a `cudaH2Dcpy(dst, src, count)` from a host vector leaves in `dst`:
the first `count` elements of the vector.  A `count` beyond the size of the vector
reads outside it, which is undefined in the source; the model then copies what the
vector holds. -/
def cudaH2Dcpy (src : List Int) (count : Nat) : List Int := src.take count

/-- Lines 207-225: read the prompts with `beam_width = 1` into empty vectors, the
`size_t` `request_batch_size` being narrowed to the `int` parameter `batch_size`; then
either leave both device pointers null (`max_input_len == 0`) or allocate them and
copy `request_batch_size * max_input_len` ids (a `size_t` product) and
`request_batch_size` lengths. -/
def prepare_inputs (env : Env) (cfg : Config) : Inputs :=
  let r := read_start_ids env.start_id_file (int_of_size_t cfg.request_batch_size) [] []
    cfg.request_input_len end_id 1
  if r.max_input_len = 0 then
    { max_input_len := r.max_input_len, v_start_lengths := r.v_start_lengths,
      v_start_ids := r.v_start_ids, d_input_ids := Data.nullptr,
      d_input_lengths := Data.nullptr, events := [Event.read_start_ids] }
  else
    let n_ids := size_t_mul cfg.request_batch_size (size_t_of_int r.max_input_len)
    { max_input_len := r.max_input_len, v_start_lengths := r.v_start_lengths,
      v_start_ids := r.v_start_ids,
      d_input_ids := Data.d_input_ids (cudaH2Dcpy r.v_start_ids n_ids),
      d_input_lengths := Data.d_input_lengths (cudaH2Dcpy r.v_start_lengths cfg.request_batch_size),
      events := [Event.read_start_ids, Event.deviceMalloc n_ids,
                 Event.deviceMalloc cfg.request_batch_size, Event.cudaH2Dcpy n_ids,
                 Event.cudaH2Dcpy cfg.request_batch_size] }

/-- Lines 301-323: the request map.  The six fixed entries, then either
`beam_search_diversity_rate` behind `FT_CHECK(beam_width > 1)` or `random_seed` with
the optional `runtime_top_p` and `runtime_top_k`. -/
def build_input_tensors (cfg : Config) (inp : Inputs) (output_seq_len_array : List Nat) :
    Except Fatal TensorMap :=
  let input_tensors : TensorMap :=
    [("input_ids", ⟨.MEMORY_GPU, .TYPE_INT32,
        [cfg.request_batch_size, size_t_of_int inp.max_input_len], inp.d_input_ids⟩),
     ("input_lengths", ⟨.MEMORY_GPU, .TYPE_INT32, [cfg.request_batch_size], inp.d_input_lengths⟩),
     ("output_seq_len", ⟨.MEMORY_CPU, .TYPE_UINT32, [cfg.request_batch_size],
        Data.output_seq_len_array output_seq_len_array⟩),
     ("temperature", ⟨.MEMORY_CPU, .TYPE_FP32, [1], Data.temperature⟩),
     ("len_penalty", ⟨.MEMORY_CPU, .TYPE_FP32, [1], Data.len_penalty⟩),
     ("repetition_penalty", ⟨.MEMORY_CPU, .TYPE_FP32, [1], Data.repetition_penalty⟩)]
  if cfg.top_k = 0 ∧ cfg.top_p.eq_zero = true then
    if cfg.beam_width > 1 then
      .ok (TensorMap.insert input_tensors "beam_search_diversity_rate"
        ⟨.MEMORY_CPU, .TYPE_FP32, [1], Data.beam_search_diversity_rate⟩)
    else .error Fatal.ft_check_beam_width
  else
    let input_tensors := TensorMap.insert input_tensors "random_seed"
      ⟨.MEMORY_CPU, .TYPE_UINT64, [1], Data.random_seed⟩
    let input_tensors :=
      if cfg.top_p.eq_zero = false then
        TensorMap.insert input_tensors "runtime_top_p" ⟨.MEMORY_CPU, .TYPE_FP32, [1], Data.top_p⟩
      else input_tensors
    let input_tensors :=
      if cfg.top_k ≠ 0 then
        TensorMap.insert input_tensors "runtime_top_k"
          ⟨.MEMORY_CPU, .TYPE_INT32, [1], Data.top_k cfg.top_k⟩
      else input_tensors
    .ok input_tensors

/-- Lines 325-337: the response map; `total_output_len` and `request_output_len`
enter the shapes through `(size_t)`. -/
def build_output_tensors (cfg : Config) (total_output_len request_output_len : Int) : TensorMap :=
  [("output_ids", ⟨.MEMORY_GPU, .TYPE_INT32,
      [cfg.request_batch_size, cfg.beam_width, size_t_of_int total_output_len],
      Data.d_output_ids (size_t_mul (size_t_mul cfg.request_batch_size cfg.beam_width)
        (size_t_of_int total_output_len))⟩),
   ("sequence_length", ⟨.MEMORY_GPU, .TYPE_INT32, [cfg.request_batch_size, cfg.beam_width],
      Data.d_sequence_lengths (size_t_mul cfg.request_batch_size cfg.beam_width)⟩),
   ("output_cum_log_probs", ⟨.MEMORY_GPU, .TYPE_FP32,
      [size_t_of_int request_output_len, cfg.request_batch_size, cfg.beam_width], Data.nullptr⟩)]

/-- What `gpt_example` has built when it reaches the first `gpt.forward` call. -/
structure Built where
  tensor_para_rank : Int
  pipeline_para_rank : Int
  layers_per_group : Int
  inputs : Inputs
  total_output_len : Int
  output_seq_len_array : List Nat
  input_tensors : TensorMap
  output_tensors : TensorMap
deriving DecidableEq, Repr

/-- A run of the modelled part of `gpt_example`: the calls issued, in order, and
either the fatal end of the process or what was built. -/
structure Run where
  trace : List Event
  result : Except Fatal Built

/-- Lines 172-180: device query and selection. -/
def select_device (env : Env) : List Event :=
  [Event.cudaGetDeviceCount, Event.cudaSetDevice (env.rank.tmod env.device_count),
   Event.cudaGetDevice, Event.cudaGetDeviceProperties]

/-- Lines 235-299: stream and cuBLAS handles, weights, model, output buffers. -/
def create_model (cfg : Config) (total_output_len : Int) : List Event :=
  [Event.cudaStreamCreate, Event.cublasCreate, Event.cublasLtCreate, Event.cublasSetStream,
   Event.GptFP8Weight, Event.transposeWeight, Event.GptFP8,
   Event.deviceMalloc (size_t_mul (size_t_mul cfg.request_batch_size cfg.beam_width)
     (size_t_of_int total_output_len)),
   Event.deviceMalloc (size_t_mul cfg.request_batch_size cfg.beam_width)]

/-- The function `gpt_example` from its first check (line 162) to the construction of
the response map (line 337); `output_len` is its second parameter.

The remainders of lines 162-163 have a `size_t` on the left, so the `int` divisor is
converted to `size_t`; a zero divisor is undefined.  Line 190 divides in `size_t` and
narrows the quotient to `int`; the product of line 191 is the 32-bit one of the
machine and is compared with the narrowed `decoder_layers`.  Line 228 compares with
the narrowed `max_seq_len`, and line 233 stores `total_output_len` as `uint32_t`. -/
def gpt_example (env : Env) (cfg : Config) (output_len : Int) : Run :=
  let request_output_len := output_len
  if cfg.tensor_para_size = 0 then
    ⟨[], .error Fatal.division_by_zero⟩
  else if ¬ (cfg.head_num % size_t_of_int cfg.tensor_para_size = 0) then
    ⟨[], .error Fatal.ft_check_head_num⟩
  else if cfg.pipeline_para_size = 0 then
    ⟨[], .error Fatal.division_by_zero⟩
  else if ¬ (cfg.decoder_layers % size_t_of_int cfg.pipeline_para_size = 0) then
    ⟨[], .error Fatal.ft_check_decoder_layers⟩
  else
    let t1 := select_device env
    if ¬ (cfg.tensor_para_size * cfg.pipeline_para_size = env.world_size) then
      ⟨t1, .error Fatal.ft_check_world_size⟩
    else
      let coords := rank_coordinates env.rank cfg.tensor_para_size
      let layers_per_group : Int :=
        int_of_size_t (cfg.decoder_layers / size_t_of_int cfg.pipeline_para_size)
      if wrap_int (layers_per_group * cfg.pipeline_para_size) ≠
          int_of_size_t cfg.decoder_layers then
        ⟨t1, .error Fatal.exit_layers_per_group⟩
      else
        let inp := prepare_inputs env cfg
        let t2 := t1 ++ [Event.ftNcclInitialize] ++ inp.events
        let total_output_len := inp.max_input_len + request_output_len
        if total_output_len > int_of_size_t cfg.max_seq_len then
          ⟨t2, .error Fatal.exit_total_output_len⟩
        else
          let output_seq_len_array :=
            List.replicate cfg.request_batch_size (uint32_of_int total_output_len)
          let t3 := t2 ++ create_model cfg total_output_len
          match build_input_tensors cfg inp output_seq_len_array with
          | .error f => ⟨t3, .error f⟩
          | .ok input_tensors =>
            ⟨t3, .ok
              { tensor_para_rank := coords.1, pipeline_para_rank := coords.2,
                layers_per_group := layers_per_group, inputs := inp,
                total_output_len := total_output_len,
                output_seq_len_array := output_seq_len_array,
                input_tensors := input_tensors,
                output_tensors := build_output_tensors cfg total_output_len request_output_len }⟩

/-- The four checks of the topology validation: the two `FT_CHECK`s of lines
162-163, the world-size `FT_CHECK_WITH_INFO` and the `layers_per_group` check. -/
def Fatal.is_topology_check : Fatal → Bool
  | .ft_check_head_num => true
  | .ft_check_decoder_layers => true
  | .ft_check_world_size => true
  | .exit_layers_per_group => true
  | _ => false

/-- The conditions under which a run gets past the four topology checks, as the
source evaluates them. -/
abbrev topology_ok (env : Env) (cfg : Config) : Prop :=
  cfg.tensor_para_size ≠ 0 ∧
  cfg.head_num % size_t_of_int cfg.tensor_para_size = 0 ∧
  cfg.pipeline_para_size ≠ 0 ∧
  cfg.decoder_layers % size_t_of_int cfg.pipeline_para_size = 0 ∧
  cfg.tensor_para_size * cfg.pipeline_para_size = env.world_size ∧
  wrap_int (int_of_size_t (cfg.decoder_layers / size_t_of_int cfg.pipeline_para_size) *
    cfg.pipeline_para_size) = int_of_size_t cfg.decoder_layers

/-- The condition of `FT_CHECK(beam_width > 1)` being reached and failing. -/
abbrev beam_check_fails (cfg : Config) : Prop :=
  cfg.top_k = 0 ∧ cfg.top_p.eq_zero = true ∧ ¬ cfg.beam_width > 1

/-- A configuration of four ranks, two tensor-parallel by two pipeline-parallel
groups, sampling with `top_k = 1`. -/
def sample_cfg : Config :=
  { max_seq_len := 1024, beam_width := 1, top_k := 1, top_p := FP32.zero,
    tensor_para_size := 2, pipeline_para_size := 2, head_num := 16, decoder_layers := 4,
    request_batch_size := 2, request_input_len := 0 }

/-- Rank 3 of 4 on a node of 8 devices, with a prompt file of two rows. -/
def sample_env : Env :=
  { rank := 3, world_size := 4, device_count := 8, start_id_file := some [[1, 2, 3], [4]] }

/-- The shape of the entry `key` of the response map of a run, when the run builds
one and the map has the entry. -/
def Run.output_shape (r : Run) (key : String) : Option (List Nat) :=
  match r.result with
  | .ok b => (TensorMap.find b.output_tensors key).map Tensor.shape
  | .error _ => none

/-! ## Rank coordinates -/

/-- On a nonnegative rank and a positive group size the truncating `int` operations
are the Euclidean ones. -/
theorem rank_coordinates_nonneg (rank tp : Int) (hr : 0 ≤ rank) (htp : 0 < tp) :
    rank_coordinates rank tp = (rank % tp, rank / tp) := by
  simp [rank_coordinates, Int.tmod_eq_emod hr htp.le, Int.tdiv_eq_ediv hr htp.le]

/-- C1. For positive `tensor_para_size`, `pipeline_para_size` whose product is
`world_size`, the map `rank ↦ (rank % tensor_para_size, rank / tensor_para_size)` of
`gpt_example` sends every rank of `[0, world_size)` into
`[0, tensor_para_size) × [0, pipeline_para_size)`, and every pair of that rectangle is
the image of exactly one rank of `[0, world_size)`. -/
theorem rank_coordinates_bijection (tensor_para_size pipeline_para_size world_size : Int)
    (htp : 0 < tensor_para_size) (hpp : 0 < pipeline_para_size)
    (hws : tensor_para_size * pipeline_para_size = world_size) :
    (∀ rank, 0 ≤ rank → rank < world_size →
      0 ≤ (rank_coordinates rank tensor_para_size).1 ∧
      (rank_coordinates rank tensor_para_size).1 < tensor_para_size ∧
      0 ≤ (rank_coordinates rank tensor_para_size).2 ∧
      (rank_coordinates rank tensor_para_size).2 < pipeline_para_size) ∧
    (∀ a b, 0 ≤ a → a < tensor_para_size → 0 ≤ b → b < pipeline_para_size →
      ∃! rank, (0 ≤ rank ∧ rank < world_size) ∧
        rank_coordinates rank tensor_para_size = (a, b)) := by
  subst hws
  constructor
  · intro rank h0 h1
    rw [rank_coordinates_nonneg rank _ h0 htp]
    refine ⟨Int.emod_nonneg _ htp.ne', Int.emod_lt_of_pos _ htp, Int.ediv_nonneg h0 htp.le, ?_⟩
    exact Int.ediv_lt_of_lt_mul htp (by rw [mul_comm]; exact h1)
  · intro a b ha0 ha1 hb0 hb1
    have hrange : 0 ≤ b * tensor_para_size + a ∧
        b * tensor_para_size + a < tensor_para_size * pipeline_para_size := by
      constructor
      · positivity
      · nlinarith
    refine ⟨b * tensor_para_size + a, ⟨hrange, ?_⟩, ?_⟩
    · rw [rank_coordinates_nonneg _ _ hrange.1 htp]
      have h1 : (b * tensor_para_size + a) % tensor_para_size = a := by
        rw [add_comm, Int.add_mul_emod_self, Int.emod_eq_of_lt ha0 ha1]
      have h2 : (b * tensor_para_size + a) / tensor_para_size = b := by
        rw [add_comm, Int.add_mul_ediv_right _ _ htp.ne', Int.ediv_eq_zero_of_lt ha0 ha1, zero_add]
      rw [h1, h2]
    · rintro r ⟨⟨hr0, _⟩, hr⟩
      rw [rank_coordinates_nonneg _ _ hr0 htp] at hr
      have h1 : r % tensor_para_size = a := congrArg Prod.fst hr
      have h2 : r / tensor_para_size = b := congrArg Prod.snd hr
      have := Int.ediv_add_emod r tensor_para_size
      rw [h1, h2] at this
      linarith [mul_comm tensor_para_size b]

/-- C1 at a 2 × 3 grid of six ranks. -/
theorem rank_coordinates_bijection_witness :
    (∀ rank : Int, 0 ≤ rank → rank < 6 →
      0 ≤ (rank_coordinates rank 2).1 ∧ (rank_coordinates rank 2).1 < 2 ∧
      0 ≤ (rank_coordinates rank 2).2 ∧ (rank_coordinates rank 2).2 < 3) ∧
    (∀ a b : Int, 0 ≤ a → a < 2 → 0 ≤ b → b < 3 →
      ∃! rank, (0 ≤ rank ∧ rank < 6) ∧ rank_coordinates rank 2 = (a, b)) :=
  rank_coordinates_bijection 2 3 6 (by decide) (by decide) (by decide)

/-! ## Prompt loading -/

/-- As long as the rows stay below `batch_size`, every iteration of the filling loop
appends one filler row and one length. -/
theorem fill_loop_eq (batch_size max_input_len end_id : Int) :
    ∀ (fuel : Nat) (ids : List (List Int)) (lens : List Int),
      (lens.length : Int) + fuel ≤ batch_size →
      fill_loop batch_size max_input_len end_id fuel (ids, lens) =
        (ids ++ List.replicate fuel (padding_ids max_input_len end_id),
         lens ++ List.replicate fuel max_input_len) := by
  intro fuel
  induction fuel with
  | zero => intro ids lens _; simp [fill_loop]
  | succ n ih =>
    intro ids lens h
    have hlt : (lens.length : Int) < batch_size := by push_cast at h; omega
    rw [fill_loop, if_pos hlt, ih]
    · simp [List.replicate_succ, List.append_assoc]
    · simp only [List.length_append, List.length_singleton]
      push_cast at h ⊢
      omega

/-- The filling loop as `read_start_ids` runs it appends `batch_size - size` filler rows
(none when the file already has `batch_size` rows or more). -/
theorem fill_loop_run (batch_size max_input_len end_id : Int)
    (ids : List (List Int)) (lens : List Int) :
    fill_loop batch_size max_input_len end_id (batch_size - (lens.length : Int)).toNat (ids, lens) =
      (ids ++ List.replicate (batch_size - (lens.length : Int)).toNat
          (padding_ids max_input_len end_id),
       lens ++ List.replicate (batch_size - (lens.length : Int)).toNat max_input_len) := by
  by_cases h : (lens.length : Int) ≤ batch_size
  · apply fill_loop_eq
    omega
  · have h0 : (batch_size - (lens.length : Int)).toNat = 0 := by omega
    simp [h0, fill_loop]

/-- The iteration bound `read_start_ids` passes is enough: on return the loop condition
`size < batch_size` is false. -/
theorem fill_loop_exit (batch_size max_input_len end_id : Int)
    (ids : List (List Int)) (lens : List Int) :
    ¬ (((fill_loop batch_size max_input_len end_id (batch_size - (lens.length : Int)).toNat
          (ids, lens)).2.length : Int) < batch_size) := by
  rw [fill_loop_run]
  simp only [List.length_append, List.length_replicate]
  push_cast
  omega

/-- The beam loop appends `n` copies of the row and of its length. -/
theorem beam_loop_eq (row : List Int) (len : Int) :
    ∀ (n : Nat) (ids lens : List Int),
      beam_loop row len n (ids, lens) =
        (ids ++ (List.replicate n row).flatten, lens ++ List.replicate n len) := by
  intro n
  induction n with
  | zero => intro ids lens; simp [beam_loop]
  | succ n ih =>
    intro ids lens
    rw [beam_loop, ih]
    simp [List.replicate_succ, List.append_assoc]

/-- The emitting loop appends, row by row, `beam_width` copies of the row and of its
length. -/
theorem emit_loop_eq (beam_width : Int) :
    ∀ (rows : List (List Int)) (lens : List Int) (ids0 lens0 : List Int),
      emit_loop beam_width rows lens (ids0, lens0) =
        (ids0 ++ (rows.zip lens).flatMap (fun rl => (List.replicate beam_width.toNat rl.1).flatten),
         lens0 ++ (rows.zip lens).flatMap (fun rl => List.replicate beam_width.toNat rl.2)) := by
  intro rows lens
  unfold emit_loop
  induction rows.zip lens with
  | nil => intro ids0 lens0; simp
  | cons p ps ih =>
    intro ids0 lens0
    rw [List.foldl_cons, beam_loop_eq, ih]
    simp [List.flatMap_cons, List.append_assoc]

/-- A `flatMap` over a zip of lists of equal length that only uses the first component. -/
theorem flatMap_zip_fst {α β γ : Type} (g : α → List γ) :
    ∀ (l1 : List α) (l2 : List β), l1.length = l2.length →
      (l1.zip l2).flatMap (fun p => g p.1) = l1.flatMap g := by
  intro l1
  induction l1 with
  | nil => intro l2 _; simp
  | cons a l1 ih =>
    intro l2 h
    cases l2 with
    | nil => simp at h
    | cons b l2 =>
      simp only [List.length_cons, add_left_inj] at h
      simp [List.zip_cons_cons, List.flatMap_cons, ih l2 h]

/-- A `flatMap` over a zip of lists of equal length that only uses the second component. -/
theorem flatMap_zip_snd {α β γ : Type} (g : β → List γ) :
    ∀ (l1 : List α) (l2 : List β), l1.length = l2.length →
      (l1.zip l2).flatMap (fun p => g p.2) = l2.flatMap g := by
  intro l1
  induction l1 with
  | nil => intro l2 h; cases l2 with
    | nil => simp
    | cons b l2 => simp at h
  | cons a l1 ih =>
    intro l2 h
    cases l2 with
    | nil => simp at h
    | cons b l2 =>
      simp only [List.length_cons, add_left_inj] at h
      simp [List.zip_cons_cons, List.flatMap_cons, ih l2 h]

/-- The padding loop leaves a filler row as it is. -/
theorem add_padding_row_padding_ids (max_input_len end_id : Int) :
    add_padding_row max_input_len end_id (padding_ids max_input_len end_id) =
      List.replicate max_input_len.toNat end_id := by
  have h : (max_input_len - ((List.replicate max_input_len.toNat end_id).length : Int)).toNat = 0 := by
    simp only [List.length_replicate]
    omega
  simp only [add_padding_row, padding_ids, h, List.replicate_zero, List.append_nil]

/-- The result of `read_start_ids` on a file that opens, in closed form. -/
theorem read_start_ids_opened (lines : List (List Int)) (batch_size : Int)
    (v_start_lengths v_start_ids : List Int) (max_input_len end_id beam_width : Int) :
    read_start_ids (some lines) batch_size v_start_lengths v_start_ids max_input_len end_id
        beam_width =
      { ret := 0,
        v_start_lengths := v_start_lengths ++
          (lines.map (fun row => (row.length : Int)) ++
            List.replicate (batch_size - (lines.length : Int)).toNat
              (max_len_loop max_input_len (lines.map (fun row => (row.length : Int))))).flatMap
            (fun len => List.replicate beam_width.toNat len),
        v_start_ids := v_start_ids ++
          (lines.map (add_padding_row
              (max_len_loop max_input_len (lines.map (fun row => (row.length : Int)))) end_id) ++
            List.replicate (batch_size - (lines.length : Int)).toNat
              (List.replicate
                (max_len_loop max_input_len (lines.map (fun row => (row.length : Int)))).toNat
                end_id)).flatMap
            (fun row => (List.replicate beam_width.toNat row).flatten),
        max_input_len := max_len_loop max_input_len (lines.map (fun row => (row.length : Int))) } := by
  simp only [read_start_ids, fill_loop_run, emit_loop_eq, add_padding]
  rw [flatMap_zip_fst (fun row => (List.replicate beam_width.toNat row).flatten),
    flatMap_zip_snd (fun len => List.replicate beam_width.toNat len)]
  · simp only [List.map_append, List.map_replicate, add_padding_row_padding_ids, List.length_map]
  · simp
  · simp


/-- Repeating every element `n` times multiplies the length by `n`. -/
theorem length_flatMap_replicate {α : Type} (n : Nat) :
    ∀ l : List α, (l.flatMap (fun x => List.replicate n x)).length = l.length * n := by
  intro l
  induction l with
  | nil => simp
  | cons a l ih => simp [List.flatMap_cons, ih, Nat.succ_mul, Nat.add_comm]

/-- C7. On a file that opens, for `beam_width >= 0` and empty output vectors:
`v_start_ids` is the concatenation, in file order and followed by the filler rows, of
every padded row repeated `beam_width` consecutive times; `v_start_lengths` is the list
of the rows' recorded lengths (the filler rows record `max_input_len`), each repeated
`beam_width` consecutive times; so `v_start_lengths.size()` is the number of rows, file
rows and filler rows together, times `beam_width`. -/
theorem read_start_ids_beam_replication (lines : List (List Int))
    (batch_size max_input_len end_id beam_width : Int) (hbw : 0 ≤ beam_width) :
    (read_start_ids (some lines) batch_size [] [] max_input_len end_id beam_width).v_start_ids =
      (lines.map (fun row => row ++ List.replicate
          ((read_start_ids (some lines) batch_size [] [] max_input_len end_id
            beam_width).max_input_len - (row.length : Int)).toNat end_id) ++
        List.replicate (batch_size - (lines.length : Int)).toNat
          (List.replicate (read_start_ids (some lines) batch_size [] [] max_input_len end_id
            beam_width).max_input_len.toNat end_id)).flatMap
        (fun row => (List.replicate beam_width.toNat row).flatten) ∧
    (read_start_ids (some lines) batch_size [] [] max_input_len end_id beam_width).v_start_lengths =
      (lines.map (fun row => (row.length : Int)) ++
        List.replicate (batch_size - (lines.length : Int)).toNat
          (read_start_ids (some lines) batch_size [] [] max_input_len end_id
            beam_width).max_input_len).flatMap
        (fun len => List.replicate beam_width.toNat len) ∧
    (((read_start_ids (some lines) batch_size [] [] max_input_len end_id
        beam_width).v_start_lengths.length : Nat) : Int) =
      ((lines.length + (batch_size - (lines.length : Int)).toNat : Nat) : Int) * beam_width := by
  rw [read_start_ids_opened]
  refine ⟨?_, ?_, ?_⟩
  · simp only [List.nil_append]
    rfl
  · simp only [List.nil_append]
  · simp only [List.nil_append, length_flatMap_replicate, List.length_append, List.length_map,
      List.length_replicate]
    push_cast
    rw [Int.toNat_of_nonneg hbw]

/-- C7 on a file of two rows, `batch_size` 3, `max_input_len` 2, `end_id` 9 and two
beams. -/
theorem read_start_ids_beam_replication_witness :
    (0 : Int) ≤ 2 ∧
    (read_start_ids (some [[1, 2, 3], [4]]) 3 [] [] 2 9 2).v_start_ids =
      [1, 2, 3, 1, 2, 3, 4, 9, 4, 9, 9, 9, 9, 9] ∧
    (read_start_ids (some [[1, 2, 3], [4]]) 3 [] [] 2 9 2).v_start_lengths =
      [3, 3, 1, 1, 2, 2] :=
  ⟨by decide,
   (read_start_ids_beam_replication [[1, 2, 3], [4]] 3 2 9 2 (by decide)).1.trans (by decide),
   (read_start_ids_beam_replication [[1, 2, 3], [4]] 3 2 9 2 (by decide)).2.1.trans (by decide)⟩


/-- With one beam the rows are concatenated once each. -/
theorem flatMap_replicate_one_flatten {α : Type} (l : List (List α)) :
    l.flatMap (fun row => (List.replicate 1 row).flatten) = l.flatten := by
  induction l with
  | nil => simp
  | cons a l ih =>
    rw [List.flatMap_cons, ih]
    simp

/-- With one beam every length is recorded once. -/
theorem flatMap_replicate_one {α : Type} (l : List α) :
    l.flatMap (fun x => List.replicate 1 x) = l := by
  induction l with
  | nil => simp
  | cons a l ih => simp [List.flatMap_cons, ih]

/-- Rows of at least `n` elements each concatenate to at least `rows.length * n`
elements. -/
theorem length_flatten_ge {α : Type} (n : Nat) (rows : List (List α))
    (h : ∀ row ∈ rows, n ≤ row.length) : rows.length * n ≤ rows.flatten.length := by
  induction rows with
  | nil => simp
  | cons a rows ih =>
    have h1 := h a (List.mem_cons_self _ _)
    have h2 := ih (fun row hr => h row (List.mem_cons_of_mem _ hr))
    simp only [List.length_cons, List.flatten_cons, List.length_append, Nat.succ_mul]
    omega

/-- The maximum loop never lowers `max_input_len`. -/
theorem max_len_loop_ge (max_input_len : Int) (lens : List Int) :
    max_input_len ≤ max_len_loop max_input_len lens := by
  unfold max_len_loop
  generalize lens.drop 1 = l
  induction l generalizing max_input_len with
  | nil => simp
  | cons a l ih =>
    rw [List.foldl_cons]
    split_ifs with h
    · exact ih max_input_len
    · exact le_trans (not_lt.mp h) (ih a)

/-- After the padding loop a row has at least `max_input_len` elements. -/
theorem length_add_padding_row_ge (max_input_len end_id : Int) (row : List Int) :
    max_input_len.toNat ≤ (add_padding_row max_input_len end_id row).length := by
  simp only [add_padding_row, List.length_append, List.length_replicate]
  omega

/-- The output vectors of `read_start_ids` for `beam_width = 1` and empty vectors on
entry. -/
theorem read_start_ids_single_beam (lines : List (List Int)) (batch_size : Int)
    (max_input_len end_id : Int) :
    (read_start_ids (some lines) batch_size [] [] max_input_len end_id 1).v_start_lengths =
      lines.map (fun row => (row.length : Int)) ++
        List.replicate (batch_size - (lines.length : Int)).toNat
          (read_start_ids (some lines) batch_size [] [] max_input_len end_id 1).max_input_len ∧
    (read_start_ids (some lines) batch_size [] [] max_input_len end_id 1).v_start_ids =
      (lines.map (add_padding_row
          (read_start_ids (some lines) batch_size [] [] max_input_len end_id 1).max_input_len
          end_id)).flatten ++
        (List.replicate (batch_size - (lines.length : Int)).toNat
          (List.replicate
            (read_start_ids (some lines) batch_size [] [] max_input_len end_id 1).max_input_len.toNat
            end_id)).flatten := by
  rw [read_start_ids_opened]
  simp only [List.nil_append]
  have h1 : (1 : Int).toNat = 1 := rfl
  rw [h1, flatMap_replicate_one, flatMap_replicate_one_flatten, List.flatten_append]
  exact ⟨rfl, rfl⟩

/-- A nonnegative `max_input_len` stays nonnegative. -/
theorem read_start_ids_max_input_len_nonneg (lines : List (List Int)) (batch_size : Int)
    (v_start_lengths v_start_ids : List Int) (max_input_len end_id beam_width : Int)
    (h : 0 ≤ max_input_len) :
    0 ≤ (read_start_ids (some lines) batch_size v_start_lengths v_start_ids max_input_len end_id
      beam_width).max_input_len := by
  rw [read_start_ids_opened]
  exact le_trans h (max_len_loop_ge _ _)

/-- Sizes of the output vectors for `beam_width = 1`. -/
theorem read_start_ids_single_beam_sizes (lines : List (List Int)) (batch_size : Int)
    (max_input_len end_id : Int) :
    (read_start_ids (some lines) batch_size [] [] max_input_len end_id 1).v_start_lengths.length =
      lines.length + (batch_size - (lines.length : Int)).toNat ∧
    (lines.length + (batch_size - (lines.length : Int)).toNat) *
        (read_start_ids (some lines) batch_size [] [] max_input_len end_id 1).max_input_len.toNat ≤
      (read_start_ids (some lines) batch_size [] [] max_input_len end_id 1).v_start_ids.length := by
  obtain ⟨hl, hi⟩ := read_start_ids_single_beam lines batch_size max_input_len end_id
  constructor
  · rw [hl]; simp
  · rw [hi, List.length_append, Nat.add_mul]
    apply Nat.add_le_add
    · have := length_flatten_ge
        (read_start_ids (some lines) batch_size [] [] max_input_len end_id 1).max_input_len.toNat
        (lines.map (add_padding_row
          (read_start_ids (some lines) batch_size [] [] max_input_len end_id 1).max_input_len
          end_id))
        (by
          intro row hrow
          obtain ⟨r0, _, rfl⟩ := List.mem_map.mp hrow
          exact length_add_padding_row_ge _ _ _)
      simpa using this
    · simp

/-! ## Integer conversions -/

/-- A nonnegative `int` keeps its value as a `size_t`. -/
theorem size_t_of_int_nonneg (x : Int) (h : 0 ≤ x) : size_t_of_int x = x.toNat := by
  simp [size_t_of_int, h]

/-- A nonnegative `int` keeps its value as a `size_t`, read back as an integer. -/
theorem size_t_of_int_cast (x : Int) (h : 0 ≤ x) : ((size_t_of_int x : Nat) : Int) = x := by
  rw [size_t_of_int_nonneg x h, Int.toNat_of_nonneg h]

/-- A value in the range of `int` is kept by the narrowing. -/
theorem wrap_int_of_range (x : Int) (h0 : -2147483648 ≤ x) (h1 : x < 2147483648) :
    wrap_int x = x := by
  unfold wrap_int
  rw [Int.emod_eq_of_lt (by omega) (by omega)]
  omega

/-- A `size_t` below `2^31` keeps its value as an `int`. -/
theorem int_of_size_t_of_lt (n : Nat) (h : n < 2147483648) : int_of_size_t n = (n : Int) := by
  unfold int_of_size_t
  exact wrap_int_of_range _ (by omega) (by omega)

/-- A `size_t` product never exceeds the product of the integers. -/
theorem size_t_mul_le (a b : Nat) : size_t_mul a b ≤ a * b := Nat.mod_le _ _

/-! ## Topology validation -/

/-- Past the topology checks `gpt_example` is the sequence-length check followed by
the construction of the two tensor maps. -/
theorem gpt_example_after_topology (env : Env) (cfg : Config) (output_len : Int)
    (h : topology_ok env cfg) :
    gpt_example env cfg output_len =
      if (prepare_inputs env cfg).max_input_len + output_len > int_of_size_t cfg.max_seq_len then
        ⟨select_device env ++ [Event.ftNcclInitialize] ++ (prepare_inputs env cfg).events,
          .error Fatal.exit_total_output_len⟩
      else
        match build_input_tensors cfg (prepare_inputs env cfg)
            (List.replicate cfg.request_batch_size
              (uint32_of_int ((prepare_inputs env cfg).max_input_len + output_len))) with
        | .error f =>
          ⟨select_device env ++ [Event.ftNcclInitialize] ++ (prepare_inputs env cfg).events ++
            create_model cfg ((prepare_inputs env cfg).max_input_len + output_len), .error f⟩
        | .ok input_tensors =>
          ⟨select_device env ++ [Event.ftNcclInitialize] ++ (prepare_inputs env cfg).events ++
            create_model cfg ((prepare_inputs env cfg).max_input_len + output_len), .ok
            { tensor_para_rank := (rank_coordinates env.rank cfg.tensor_para_size).1,
              pipeline_para_rank := (rank_coordinates env.rank cfg.tensor_para_size).2,
              layers_per_group :=
                int_of_size_t (cfg.decoder_layers / size_t_of_int cfg.pipeline_para_size),
              inputs := prepare_inputs env cfg,
              total_output_len := (prepare_inputs env cfg).max_input_len + output_len,
              output_seq_len_array := List.replicate cfg.request_batch_size
                (uint32_of_int ((prepare_inputs env cfg).max_input_len + output_len)),
              input_tensors := input_tensors,
              output_tensors := build_output_tensors cfg
                ((prepare_inputs env cfg).max_input_len + output_len) output_len }⟩ := by
  obtain ⟨h0, h1, h0', h2, h3, h4⟩ := h
  unfold gpt_example
  simp only [h0, h0', h1, h2, h3, h4, not_true_eq_false, if_false, ne_eq]

/-- A run that is not stopped at a topology check or at a remainder by zero satisfies
the conditions of `topology_ok`. -/
theorem topology_ok_of_passes (env : Env) (cfg : Config) (output_len : Int)
    (h : ∀ f, (gpt_example env cfg output_len).result = .error f →
      f.is_topology_check = false ∧ f ≠ Fatal.division_by_zero) :
    topology_ok env cfg := by
  unfold topology_ok
  by_cases h0 : cfg.tensor_para_size = 0
  · have := h Fatal.division_by_zero (by unfold gpt_example; simp only [h0, if_true])
    exact absurd rfl this.2
  by_cases h1 : cfg.head_num % size_t_of_int cfg.tensor_para_size = 0
  swap
  · have := h Fatal.ft_check_head_num (by
      unfold gpt_example
      simp only [h0, h1, not_false_eq_true, if_false, if_true])
    simp [Fatal.is_topology_check] at this
  by_cases h0' : cfg.pipeline_para_size = 0
  · have := h Fatal.division_by_zero (by
      unfold gpt_example
      simp only [h0, h1, h0', not_true_eq_false, if_false, if_true])
    exact absurd rfl this.2
  by_cases h2 : cfg.decoder_layers % size_t_of_int cfg.pipeline_para_size = 0
  swap
  · have := h Fatal.ft_check_decoder_layers (by
      unfold gpt_example
      simp only [h0, h1, h0', h2, not_true_eq_false, not_false_eq_true, if_false, if_true])
    simp [Fatal.is_topology_check] at this
  by_cases h3 : cfg.tensor_para_size * cfg.pipeline_para_size = env.world_size
  swap
  · have := h Fatal.ft_check_world_size (by
      unfold gpt_example
      simp only [h0, h1, h0', h2, h3, not_true_eq_false, not_false_eq_true, if_false, if_true])
    simp [Fatal.is_topology_check] at this
  by_cases h4 : wrap_int
      (int_of_size_t (cfg.decoder_layers / size_t_of_int cfg.pipeline_para_size) *
        cfg.pipeline_para_size) = int_of_size_t cfg.decoder_layers
  swap
  · have := h Fatal.exit_layers_per_group (by
      unfold gpt_example
      simp only [h0, h1, h0', h2, h3, h4, not_true_eq_false, not_false_eq_true, if_false,
        if_true, ne_eq])
    simp [Fatal.is_topology_check] at this
  exact ⟨h0, h1, h0', h2, h3, h4⟩

/-! ## Sequence-length check and request map -/

/-- Every request map that is built holds the `input_ids` and `input_lengths` entries
of lines 302-304. -/
theorem build_input_tensors_input_entries (cfg : Config) (inp : Inputs) (arr : List Nat)
    (m : TensorMap) (h : build_input_tensors cfg inp arr = .ok m) :
    TensorMap.find m "input_ids" =
      some ⟨.MEMORY_GPU, .TYPE_INT32, [cfg.request_batch_size, size_t_of_int inp.max_input_len],
        inp.d_input_ids⟩ ∧
    TensorMap.find m "input_lengths" =
      some ⟨.MEMORY_GPU, .TYPE_INT32, [cfg.request_batch_size], inp.d_input_lengths⟩ := by
  unfold build_input_tensors at h
  split_ifs at h
  all_goals simp only [Except.ok.injEq, reduceCtorEq] at h
  all_goals subst h
  all_goals simp [TensorMap.find, TensorMap.insert, List.find?]

/-- The construction of the request map can only fail at `FT_CHECK(beam_width > 1)`. -/
theorem build_input_tensors_error (cfg : Config) (inp : Inputs) (arr : List Nat)
    (f : Fatal) (h : build_input_tensors cfg inp arr = .error f) :
    f = Fatal.ft_check_beam_width := by
  unfold build_input_tensors at h
  split_ifs at h
  all_goals simp at h
  exact h.symm

/-- The policy keys of the request map, as lines 310-323 insert them. -/
theorem build_input_tensors_policy (cfg : Config) (inp : Inputs) (arr : List Nat) :
    (beam_check_fails cfg → build_input_tensors cfg inp arr = .error Fatal.ft_check_beam_width) ∧
    (¬ beam_check_fails cfg → ∃ m, build_input_tensors cfg inp arr = .ok m) ∧
    (∀ m, build_input_tensors cfg inp arr = .ok m →
      (TensorMap.contains m "beam_search_diversity_rate" = true ↔
        (cfg.top_k = 0 ∧ cfg.top_p.eq_zero = true)) ∧
      (TensorMap.contains m "beam_search_diversity_rate" = true → cfg.beam_width > 1) ∧
      (TensorMap.contains m "random_seed" = true ↔
        (cfg.top_k ≠ 0 ∨ cfg.top_p.eq_zero = false)) ∧
      (TensorMap.contains m "beam_search_diversity_rate" = !TensorMap.contains m "random_seed") ∧
      (TensorMap.contains m "runtime_top_k" = true → TensorMap.contains m "random_seed" = true) ∧
      (TensorMap.contains m "runtime_top_p" = true → TensorMap.contains m "random_seed" = true)) := by
  unfold beam_check_fails build_input_tensors
  cases htp : cfg.top_p.eq_zero
  all_goals by_cases hk : cfg.top_k = 0
  all_goals by_cases hb : cfg.beam_width > 1
  all_goals simp [hk, hb, TensorMap.insert, TensorMap.contains]

/-- Under the conditions of `topology_ok` a run can only end at the sequence-length
check or at `FT_CHECK(beam_width > 1)`. -/
theorem passes_of_topology_ok (env : Env) (cfg : Config) (output_len : Int)
    (h : topology_ok env cfg) :
    ∀ f, (gpt_example env cfg output_len).result = .error f →
      f = Fatal.exit_total_output_len ∨ f = Fatal.ft_check_beam_width := by
  intro f hf
  rw [gpt_example_after_topology env cfg output_len h] at hf
  split_ifs at hf
  · simp at hf; exact Or.inl hf.symm
  · split at hf
    · rename_i f2 hb
      simp at hf; subst hf
      exact Or.inr (build_input_tensors_error _ _ _ _ hb)
    · simp at hf

/-- What a run that reaches the first `forward` call has gone through and built. -/
theorem gpt_example_ok (env : Env) (cfg : Config) (output_len : Int) (b : Built)
    (hres : (gpt_example env cfg output_len).result = .ok b) :
    topology_ok env cfg ∧
    (prepare_inputs env cfg).max_input_len + output_len ≤ int_of_size_t cfg.max_seq_len ∧
    b.inputs = prepare_inputs env cfg ∧
    b.total_output_len = (prepare_inputs env cfg).max_input_len + output_len ∧
    b.output_seq_len_array = List.replicate cfg.request_batch_size
      (uint32_of_int ((prepare_inputs env cfg).max_input_len + output_len)) ∧
    build_input_tensors cfg b.inputs b.output_seq_len_array = .ok b.input_tensors ∧
    b.output_tensors = build_output_tensors cfg b.total_output_len output_len := by
  have hok : topology_ok env cfg := by
    apply topology_ok_of_passes env cfg output_len
    intro f hf
    rw [hres] at hf
    simp at hf
  refine ⟨hok, ?_⟩
  rw [gpt_example_after_topology env cfg output_len hok] at hres
  split_ifs at hres with hgt
  split at hres
  · simp at hres
  · rename_i m hb
    simp only [Except.ok.injEq] at hres
    subst hres
    exact ⟨not_lt.mp hgt, rfl, rfl, rfl, hb, rfl⟩

/-- A run that passes every check builds its maps. -/
theorem gpt_example_builds (env : Env) (cfg : Config) (output_len : Int)
    (hok : topology_ok env cfg)
    (hle : (prepare_inputs env cfg).max_input_len + output_len ≤ int_of_size_t cfg.max_seq_len)
    (hbeam : ¬ beam_check_fails cfg) :
    ∃ b, (gpt_example env cfg output_len).result = .ok b := by
  obtain ⟨m, hm⟩ := (build_input_tensors_policy cfg (prepare_inputs env cfg)
    (List.replicate cfg.request_batch_size
      (uint32_of_int ((prepare_inputs env cfg).max_input_len + output_len)))).2.1 hbeam
  rw [gpt_example_after_topology env cfg output_len hok]
  simp only [not_lt.mpr hle, if_false, hm]
  exact ⟨_, rfl⟩

/-- C5. The request map `gpt_example` builds contains exactly one of
`beam_search_diversity_rate` and `random_seed`: the first exactly when `top_k == 0` and
`top_p == 0`, and then `beam_width > 1`, the second exactly when `top_k != 0` or
`top_p != 0`; `runtime_top_k` and `runtime_top_p` occur only together with
`random_seed`.  In a run that reaches the request map, the construction fails at
`FT_CHECK(beam_width > 1)` exactly when `top_k == 0`, `top_p == 0` and
`beam_width <= 1`, and succeeds otherwise. -/
theorem gpt_example_request_policy_keys (env : Env) (cfg : Config) (output_len : Int) :
    (∀ b, (gpt_example env cfg output_len).result = .ok b →
      (TensorMap.contains b.input_tensors "beam_search_diversity_rate" = true ↔
        (cfg.top_k = 0 ∧ cfg.top_p.eq_zero = true)) ∧
      (TensorMap.contains b.input_tensors "beam_search_diversity_rate" = true →
        cfg.beam_width > 1) ∧
      (TensorMap.contains b.input_tensors "random_seed" = true ↔
        (cfg.top_k ≠ 0 ∨ cfg.top_p.eq_zero = false)) ∧
      (TensorMap.contains b.input_tensors "beam_search_diversity_rate" =
        !TensorMap.contains b.input_tensors "random_seed") ∧
      (TensorMap.contains b.input_tensors "runtime_top_k" = true →
        TensorMap.contains b.input_tensors "random_seed" = true) ∧
      (TensorMap.contains b.input_tensors "runtime_top_p" = true →
        TensorMap.contains b.input_tensors "random_seed" = true)) ∧
    (topology_ok env cfg →
      (prepare_inputs env cfg).max_input_len + output_len ≤ int_of_size_t cfg.max_seq_len →
      ((gpt_example env cfg output_len).result = .error Fatal.ft_check_beam_width ↔
        (cfg.top_k = 0 ∧ cfg.top_p.eq_zero = true ∧ ¬ cfg.beam_width > 1)) ∧
      ((∃ b, (gpt_example env cfg output_len).result = .ok b) ↔
        ¬ (cfg.top_k = 0 ∧ cfg.top_p.eq_zero = true ∧ ¬ cfg.beam_width > 1))) := by
  constructor
  · intro b hres
    obtain ⟨_, _, _, _, _, hb, _⟩ := gpt_example_ok env cfg output_len b hres
    exact (build_input_tensors_policy cfg _ _).2.2 _ hb
  · intro hok hle
    have key : (gpt_example env cfg output_len).result = .error Fatal.ft_check_beam_width ↔
        beam_check_fails cfg := by
      constructor
      · intro hres
        by_contra hnot
        obtain ⟨b, hb⟩ := gpt_example_builds env cfg output_len hok hle hnot
        rw [hb] at hres
        simp at hres
      · intro hf
        have hb := (build_input_tensors_policy cfg (prepare_inputs env cfg)
          (List.replicate cfg.request_batch_size
            (uint32_of_int ((prepare_inputs env cfg).max_input_len + output_len)))).1 hf
        rw [gpt_example_after_topology env cfg output_len hok]
        simp only [not_lt.mpr hle, if_false, hb]
    refine ⟨key, ?_⟩
    constructor
    · rintro ⟨b, hb⟩ hf
      rw [key.mpr hf] at hb
      simp at hb
    · intro hnot
      exact gpt_example_builds env cfg output_len hok hle hnot

/-! ## Missing prompt file -/

/-- C6. When the prompt file cannot be opened, `read_start_ids` returns 0, sets
`max_input_len` to 0 whatever it was and leaves both vectors as they were, for every
`batch_size`, `end_id` and `beam_width`; `gpt_example` then takes the unconditional
branch: `max_input_len == 0`, both device pointers null, no allocation and no copy,
and the request's `input_ids` and `input_lengths` carry the null pointer. -/
theorem read_start_ids_cannot_open (env : Env) (cfg : Config) (output_len : Int)
    (batch_size : Int) (v_start_lengths v_start_ids : List Int)
    (max_input_len end_id beam_width : Int)
    (hfile : env.start_id_file = none) :
    read_start_ids env.start_id_file batch_size v_start_lengths v_start_ids max_input_len end_id
        beam_width =
      { ret := 0, v_start_lengths := v_start_lengths, v_start_ids := v_start_ids,
        max_input_len := 0 } ∧
    prepare_inputs env cfg =
      { max_input_len := 0, v_start_lengths := [], v_start_ids := [],
        d_input_ids := Data.nullptr, d_input_lengths := Data.nullptr,
        events := [Event.read_start_ids] } ∧
    (∀ b, (gpt_example env cfg output_len).result = .ok b →
      b.inputs.max_input_len = 0 ∧
      TensorMap.find b.input_tensors "input_ids" =
        some ⟨.MEMORY_GPU, .TYPE_INT32, [cfg.request_batch_size, 0], Data.nullptr⟩ ∧
      TensorMap.find b.input_tensors "input_lengths" =
        some ⟨.MEMORY_GPU, .TYPE_INT32, [cfg.request_batch_size], Data.nullptr⟩) := by
  have hprep : prepare_inputs env cfg =
      { max_input_len := 0, v_start_lengths := [], v_start_ids := [],
        d_input_ids := Data.nullptr, d_input_lengths := Data.nullptr,
        events := [Event.read_start_ids] } := by
    simp [prepare_inputs, hfile, read_start_ids]
  refine ⟨by rw [hfile]; rfl, hprep, ?_⟩
  intro b hres
  obtain ⟨_, _, hinp, _, _, hb, _⟩ := gpt_example_ok env cfg output_len b hres
  have h := build_input_tensors_input_entries _ _ _ _ hb
  rw [hinp, hprep] at h
  rw [hinp, hprep]
  exact ⟨rfl, h⟩

/-- C6 on the sample configuration with the prompt file missing. -/
theorem read_start_ids_cannot_open_witness :
    read_start_ids none 2 [7] [8, 9] 5 50256 1 =
      { ret := 0, v_start_lengths := [7], v_start_ids := [8, 9], max_input_len := 0 } ∧
    prepare_inputs { sample_env with start_id_file := none } sample_cfg =
      { max_input_len := 0, v_start_lengths := [], v_start_ids := [],
        d_input_ids := Data.nullptr, d_input_lengths := Data.nullptr,
        events := [Event.read_start_ids] } :=
  ⟨(read_start_ids_cannot_open { sample_env with start_id_file := none } sample_cfg 128
      2 [7] [8, 9] 5 50256 1 rfl).1,
   (read_start_ids_cannot_open { sample_env with start_id_file := none } sample_cfg 128
      2 [7] [8, 9] 5 50256 1 rfl).2.1⟩

/-! ## Response map -/

/-- C8 fails as stated.  With `request_batch_size = 0`, `request_input_len = -200` and
an empty prompt file the run passes every check with `max_input_len = -200` and
`total_output_len = -72`, and the last dimension of `output_ids` is
`(size_t)(-72) = 2^64 - 72`; with `output_len = -5` on the sample configuration the
first dimension of `output_cum_log_probs` is `(size_t)(-5) = 2^64 - 5`. -/
theorem gpt_example_response_shape_wraps :
    ((prepare_inputs { sample_env with start_id_file := some [] }
        { sample_cfg with request_batch_size := 0, request_input_len := -200 }).max_input_len +
      128 = -72 ∧
     (gpt_example { sample_env with start_id_file := some [] }
        { sample_cfg with request_batch_size := 0, request_input_len := -200 }
        128).output_shape "output_ids" = some [0, 1, 18446744073709551544]) ∧
    ((gpt_example sample_env sample_cfg (-5)).output_shape "output_ids" =
        some [2, 1, 18446744073709551612] ∧
     (gpt_example sample_env sample_cfg (-5)).output_shape "output_cum_log_probs" =
        some [18446744073709551611, 2, 1]) := by
  refine ⟨⟨by decide, by decide⟩, by decide, by decide⟩

/-- C8, amended.  A run of `gpt_example` that passes every check (topology, sequence
length, `beam_width > 1` in beam mode) and has `max_input_len + request_output_len >= 0`
and `request_output_len >= 0` builds a response map whose keys are exactly
`output_ids`, `sequence_length` and `output_cum_log_probs`, of shapes
`[request_batch_size, beam_width, max_input_len + request_output_len]`,
`[request_batch_size, beam_width]` and
`[request_output_len, request_batch_size, beam_width]`. -/
theorem gpt_example_response_shapes (env : Env) (cfg : Config) (output_len : Int)
    (hok : topology_ok env cfg)
    (hle : (prepare_inputs env cfg).max_input_len + output_len ≤ int_of_size_t cfg.max_seq_len)
    (hbeam : ¬ beam_check_fails cfg)
    (htotal : 0 ≤ (prepare_inputs env cfg).max_input_len + output_len)
    (hout : 0 ≤ output_len) :
    ∃ b, (gpt_example env cfg output_len).result = .ok b ∧
      TensorMap.keys b.output_tensors =
        ["output_ids", "sequence_length", "output_cum_log_probs"] ∧
      ∃ total_dim output_dim : Nat,
        (total_dim : Int) = (prepare_inputs env cfg).max_input_len + output_len ∧
        (output_dim : Int) = output_len ∧
        (TensorMap.find b.output_tensors "output_ids").map Tensor.shape =
          some [cfg.request_batch_size, cfg.beam_width, total_dim] ∧
        (TensorMap.find b.output_tensors "sequence_length").map Tensor.shape =
          some [cfg.request_batch_size, cfg.beam_width] ∧
        (TensorMap.find b.output_tensors "output_cum_log_probs").map Tensor.shape =
          some [output_dim, cfg.request_batch_size, cfg.beam_width] := by
  obtain ⟨b, hb⟩ := gpt_example_builds env cfg output_len hok hle hbeam
  obtain ⟨_, _, _, htot, _, _, hshape⟩ := gpt_example_ok env cfg output_len b hb
  refine ⟨b, hb, ?_, size_t_of_int ((prepare_inputs env cfg).max_input_len + output_len),
    size_t_of_int output_len, size_t_of_int_cast _ htotal, size_t_of_int_cast _ hout, ?_, ?_, ?_⟩
  all_goals rw [hshape, htot]
  all_goals simp [build_output_tensors, TensorMap.keys, TensorMap.find, List.find?]

/-- C8, amended, on the sample run: shapes `[2, 1, 129]`, `[2, 1]` and `[128, 2, 1]`. -/
theorem gpt_example_response_shapes_witness :
    ∃ b, (gpt_example sample_env sample_cfg 128).result = .ok b ∧
      TensorMap.keys b.output_tensors =
        ["output_ids", "sequence_length", "output_cum_log_probs"] ∧
      (TensorMap.find b.output_tensors "output_ids").map Tensor.shape = some [2, 1, 129] ∧
      (TensorMap.find b.output_tensors "sequence_length").map Tensor.shape = some [2, 1] ∧
      (TensorMap.find b.output_tensors "output_cum_log_probs").map Tensor.shape =
        some [128, 2, 1] := by
  obtain ⟨b, h1, h2, n, m, hn, hm, h3, h4, h5⟩ :=
    gpt_example_response_shapes sample_env sample_cfg 128
      (by decide) (by decide) (by decide) (by decide) (by decide)
  have hn' : n = 129 := by
    have : (prepare_inputs sample_env sample_cfg).max_input_len + 128 = 129 := by decide
    omega
  have hm' : m = 128 := by omega
  subst hn' hm'
  exact ⟨b, h1, h2, h3, h4, h5⟩

/-! ## Input buffers -/

/-- The vectors and `max_input_len` of `prepare_inputs` are those `read_start_ids`
leaves. -/
theorem prepare_inputs_fields (env : Env) (cfg : Config) :
    (prepare_inputs env cfg).max_input_len =
      (read_start_ids env.start_id_file (int_of_size_t cfg.request_batch_size) [] []
        cfg.request_input_len end_id 1).max_input_len ∧
    (prepare_inputs env cfg).v_start_lengths =
      (read_start_ids env.start_id_file (int_of_size_t cfg.request_batch_size) [] []
        cfg.request_input_len end_id 1).v_start_lengths ∧
    (prepare_inputs env cfg).v_start_ids =
      (read_start_ids env.start_id_file (int_of_size_t cfg.request_batch_size) [] []
        cfg.request_input_len end_id 1).v_start_ids := by
  unfold prepare_inputs
  dsimp only
  split_ifs
  all_goals exact ⟨rfl, rfl, rfl⟩

/-- In the conditional branch the device buffers hold what the two copies read, and
the calls issued are the two allocations and the two copies. -/
theorem prepare_inputs_conditional (env : Env) (cfg : Config)
    (h : (prepare_inputs env cfg).max_input_len ≠ 0) :
    (prepare_inputs env cfg).d_input_ids =
      Data.d_input_ids ((prepare_inputs env cfg).v_start_ids.take
        (size_t_mul cfg.request_batch_size
          (size_t_of_int (prepare_inputs env cfg).max_input_len))) ∧
    (prepare_inputs env cfg).d_input_lengths =
      Data.d_input_lengths ((prepare_inputs env cfg).v_start_lengths.take cfg.request_batch_size) ∧
    (prepare_inputs env cfg).events =
      [Event.read_start_ids,
       Event.deviceMalloc (size_t_mul cfg.request_batch_size
         (size_t_of_int (prepare_inputs env cfg).max_input_len)),
       Event.deviceMalloc cfg.request_batch_size,
       Event.cudaH2Dcpy (size_t_mul cfg.request_batch_size
         (size_t_of_int (prepare_inputs env cfg).max_input_len)),
       Event.cudaH2Dcpy cfg.request_batch_size] := by
  unfold prepare_inputs at h ⊢
  dsimp only at h ⊢
  split_ifs at h ⊢ with h0
  · exact absurd h0 h
  · exact ⟨rfl, rfl, rfl⟩

/-- Rows and filler rows together are at least `a`. -/
theorem le_add_toNat_sub (a n : Nat) : a ≤ n + ((a : Int) - (n : Int)).toNat := by
  omega

/-- C10 fails as stated on its last sentence.  With `request_batch_size = 2^32` line
210 passes `batch_size = 0`, so a file with the one row `7` and `request_input_len = 1`
leaves one id and one length in the vectors, and the conditional branch copies
`2^32` ids and `2^32` lengths from them. -/
theorem prepare_inputs_batch_size_narrowed :
    (0 : Int) ≤ int_of_size_t 4294967296 ∧
    (prepare_inputs { sample_env with start_id_file := some [[7]] }
      { sample_cfg with request_batch_size := 4294967296,
                        request_input_len := 1 }).max_input_len = 1 ∧
    (prepare_inputs { sample_env with start_id_file := some [[7]] }
      { sample_cfg with request_batch_size := 4294967296,
                        request_input_len := 1 }).v_start_ids = [7] ∧
    (prepare_inputs { sample_env with start_id_file := some [[7]] }
      { sample_cfg with request_batch_size := 4294967296,
                        request_input_len := 1 }).v_start_lengths = [1] ∧
    (prepare_inputs { sample_env with start_id_file := some [[7]] }
      { sample_cfg with request_batch_size := 4294967296,
                        request_input_len := 1 }).events =
      [Event.read_start_ids, Event.deviceMalloc 4294967296, Event.deviceMalloc 4294967296,
       Event.cudaH2Dcpy 4294967296, Event.cudaH2Dcpy 4294967296] := by
  refine ⟨by decide, by decide, by decide, by decide, by decide⟩

/-- C10, amended.  On a file that opens, with `batch_size >= 0`, initial
`max_input_len >= 0`, `beam_width = 1` and empty vectors on entry, `read_start_ids`
leaves `v_start_lengths.size() >= batch_size` and
`v_start_ids.size() >= batch_size * max_input_len` for the returned `max_input_len`.  A
file of fewer than `batch_size` rows is filled up to `batch_size` rows with rows of
`max_input_len` copies of `end_id`; a file of `batch_size` rows or more is kept whole.
When `request_batch_size < 2^31`, so that line 210 passes it unchanged, and
`request_input_len >= 0`, the copies of `request_batch_size * max_input_len` ids and of
`request_batch_size` lengths in the conditional branch of `gpt_example` read inside the
vectors: the device buffers are prefixes of the vectors of exactly these lengths. -/
theorem read_start_ids_covers_batch (env : Env) (cfg : Config) (lines : List (List Int))
    (batch_size max_input_len end_id : Int)
    (hbs : 0 ≤ batch_size) (hmil : 0 ≤ max_input_len)
    (hfile : env.start_id_file = some lines)
    (hrbs : cfg.request_batch_size < 2147483648) (hin : 0 ≤ cfg.request_input_len) :
    batch_size ≤
      ((read_start_ids (some lines) batch_size [] [] max_input_len end_id 1).v_start_lengths.length
        : Int) ∧
    batch_size * (read_start_ids (some lines) batch_size [] [] max_input_len end_id 1).max_input_len ≤
      ((read_start_ids (some lines) batch_size [] [] max_input_len end_id 1).v_start_ids.length
        : Int) ∧
    ((lines.length : Int) < batch_size →
      ((read_start_ids (some lines) batch_size [] [] max_input_len end_id 1).v_start_lengths.length
        : Int) = batch_size ∧
      (read_start_ids (some lines) batch_size [] [] max_input_len end_id 1).v_start_ids =
        (lines.map (fun row => row ++ List.replicate
          ((read_start_ids (some lines) batch_size [] [] max_input_len end_id 1).max_input_len -
            (row.length : Int)).toNat end_id)).flatten ++
        (List.replicate (batch_size - (lines.length : Int)).toNat
          (List.replicate
            (read_start_ids (some lines) batch_size [] [] max_input_len end_id 1).max_input_len.toNat
            end_id)).flatten) ∧
    (batch_size ≤ (lines.length : Int) →
      (read_start_ids (some lines) batch_size [] [] max_input_len end_id 1).v_start_lengths =
        lines.map (fun row => (row.length : Int)) ∧
      (read_start_ids (some lines) batch_size [] [] max_input_len end_id 1).v_start_ids =
        (lines.map (fun row => row ++ List.replicate
          ((read_start_ids (some lines) batch_size [] [] max_input_len end_id 1).max_input_len -
            (row.length : Int)).toNat end_id)).flatten) ∧
    0 ≤ (prepare_inputs env cfg).max_input_len ∧
    (cfg.request_batch_size : Int) * (prepare_inputs env cfg).max_input_len ≤
      ((prepare_inputs env cfg).v_start_ids.length : Int) ∧
    cfg.request_batch_size ≤ (prepare_inputs env cfg).v_start_lengths.length ∧
    ((prepare_inputs env cfg).max_input_len ≠ 0 →
      ∃ ids lens, (prepare_inputs env cfg).d_input_ids = Data.d_input_ids ids ∧
        (prepare_inputs env cfg).d_input_lengths = Data.d_input_lengths lens ∧
        ids.length = size_t_mul cfg.request_batch_size
          (size_t_of_int (prepare_inputs env cfg).max_input_len) ∧
        lens.length = cfg.request_batch_size ∧
        ids <+: (prepare_inputs env cfg).v_start_ids ∧
        lens <+: (prepare_inputs env cfg).v_start_lengths) := by
  obtain ⟨hl, hi⟩ := read_start_ids_single_beam lines batch_size max_input_len end_id
  obtain ⟨hsl, hsi⟩ := read_start_ids_single_beam_sizes lines batch_size max_input_len end_id
  have hM := read_start_ids_max_input_len_nonneg lines batch_size [] [] max_input_len end_id 1 hmil
  refine ⟨?_, ?_, ?_, ?_, ?_⟩
  · rw [hsl]; push_cast; omega
  · have h1 : batch_size ≤ ((lines.length + (batch_size - (lines.length : Int)).toNat : Nat) : Int) := by
      push_cast; omega
    have h2 := Int.ofNat_le.mpr hsi
    push_cast at h1 h2
    rw [Int.toNat_of_nonneg hM] at h2
    exact le_trans (mul_le_mul_of_nonneg_right h1 hM) h2
  · intro hlt
    refine ⟨?_, hi⟩
    rw [hsl]; push_cast; omega
  · intro hge
    have hk : (batch_size - (lines.length : Int)).toNat = 0 := by omega
    rw [hk] at hl hi
    simp only [List.replicate_zero, List.append_nil, List.flatten_nil] at hl hi
    exact ⟨hl, hi⟩
  · have hcast := int_of_size_t_of_lt _ hrbs
    obtain ⟨hsl2, hsi2⟩ := read_start_ids_single_beam_sizes lines (cfg.request_batch_size : Int)
      cfg.request_input_len GptFp8Example.end_id
    have hM2 := read_start_ids_max_input_len_nonneg lines (cfg.request_batch_size : Int) [] []
      cfg.request_input_len GptFp8Example.end_id 1 hin
    obtain ⟨f1, f2, f3⟩ := prepare_inputs_fields env cfg
    rw [hfile, hcast] at f1 f2 f3
    have hM3 : 0 ≤ (prepare_inputs env cfg).max_input_len := by rw [f1]; exact hM2
    have hA : cfg.request_batch_size * (prepare_inputs env cfg).max_input_len.toNat ≤
        (prepare_inputs env cfg).v_start_ids.length := by
      rw [f1, f3]
      exact le_trans (Nat.mul_le_mul_right _ (le_add_toNat_sub _ _)) hsi2
    have hA' : (cfg.request_batch_size : Int) * (prepare_inputs env cfg).max_input_len ≤
        ((prepare_inputs env cfg).v_start_ids.length : Int) := by
      have := Int.ofNat_le.mpr hA
      push_cast at this
      rwa [Int.toNat_of_nonneg hM3] at this
    have hB : cfg.request_batch_size ≤ (prepare_inputs env cfg).v_start_lengths.length := by
      rw [f2, hsl2]
      exact le_add_toNat_sub _ _
    refine ⟨hM3, hA', hB, ?_⟩
    intro hne
    obtain ⟨g1, g2, _⟩ := prepare_inputs_conditional env cfg hne
    have hcount : size_t_mul cfg.request_batch_size
        (size_t_of_int (prepare_inputs env cfg).max_input_len) ≤
        cfg.request_batch_size * (prepare_inputs env cfg).max_input_len.toNat := by
      rw [size_t_of_int_nonneg _ hM3]
      exact size_t_mul_le _ _
    exact ⟨_, _, g1, g2, List.length_take_of_le (le_trans hcount hA),
      List.length_take_of_le hB, List.take_prefix _ _, List.take_prefix _ _⟩

/-- C10, amended, on the sample run and on a file of two rows with `batch_size` 3. -/
theorem read_start_ids_covers_batch_witness :
    (0 : Int) ≤ 3 ∧ (0 : Int) ≤ 2 ∧ sample_env.start_id_file = some [[1, 2, 3], [4]] ∧
    sample_cfg.request_batch_size < 2147483648 ∧ 0 ≤ sample_cfg.request_input_len ∧
    (3 : Int) ≤
      ((read_start_ids (some [[1, 2, 3], [4]]) 3 [] [] 2 9 1).v_start_lengths.length : Int) ∧
    (sample_cfg.request_batch_size : Int) * (prepare_inputs sample_env sample_cfg).max_input_len ≤
      ((prepare_inputs sample_env sample_cfg).v_start_ids.length : Int) :=
  ⟨by decide, by decide, rfl, by decide, by decide,
   (read_start_ids_covers_batch sample_env sample_cfg [[1, 2, 3], [4]] 3 2 9
      (by decide) (by decide) rfl (by decide) (by decide)).1,
   (read_start_ids_covers_batch sample_env sample_cfg [[1, 2, 3], [4]] 3 2 9
      (by decide) (by decide) rfl (by decide) (by decide)).2.2.2.2.2.1⟩

/-! ## The first row, and the order of checks and device calls -/

/-- C3, evaluated.  On a file with the rows `1,2,3` and `4`, `batch_size` 2,
`max_input_len` 0 on entry and one beam, the maximum loop skips row 0: the returned
`max_input_len` is 1, row 0 is written with its three ids and the recorded length 3, and
`gpt_example` copies the first `2 * 1` ids, `[1, 2]`, as the batch. -/
theorem read_start_ids_first_row_unpadded :
    read_start_ids (some [[1, 2, 3], [4]]) 2 [] [] 0 50256 1 =
      { ret := 0, v_start_lengths := [3, 1], v_start_ids := [1, 2, 3, 4], max_input_len := 1 } ∧
    (prepare_inputs sample_env sample_cfg).d_input_ids = Data.d_input_ids [1, 2] := by
  decide

end GptFp8Example
